import Mathlib

/-!
Verification of the ESDM DRNG manager and runtime configuration
(esdm_drng_mgr.c and esdm_config.c of the ESDM repository).

The C code is shallowly embedded: the mutable globals and the per-instance
`struct esdm_drng` become explicit state records, `time(NULL)` and the
pluggable crypto callbacks (`drng_seed`, `drng_generate`, selftests,
`drng_alloc`) become explicit oracle parameters, and `atomic_t` counters
become `Int` (the C `int`) with explicit reduction mod 2^32 where the code
reads them as `uint32_t`.  Configuration constants that live in
`esdm_definitions.h` (which is not among the given sources), such as
`ESDM_DRNG_RESEED_THRESH` and `ESDM_DRNG_MAX_REQSIZE`, are kept as explicit
parameters of the definitions that use them; the source constrains them by
`BUILD_BUG_ON(ESDM_DRNG_RESEED_THRESH > INT_MAX)` and
`BUILD_BUG_ON(ESDM_DRNG_MAX_WITHOUT_RESEED < ESDM_DRNG_RESEED_THRESH)`.
-/

/-- Linux errno value EOPNOTSUPP (returned negated by `esdm_drng_get`). -/
def EOPNOTSUPP : Int := 95

/-- Linux errno value EFAULT (returned negated on short DRBG generation). -/
def EFAULT : Int := 14

/-- SSIZE_MAX on a 64-bit platform; `esdm_drng_get` clamps `outbuflen` to it. -/
def SSIZE_MAX : Nat := 2 ^ 63 - 1

/-- Modelled from the spec: `ESDM_DRNG_SECURITY_STRENGTH_BITS` is defined in
`esdm_definitions.h`, which is not among the given sources.  The spec fixes a
256-bit DRBG security strength (entropy rates are "clamped to `[0, 256]`"). -/
def ESDM_DRNG_SECURITY_STRENGTH_BITS : Nat := 256

/-- Reading an `atomic_t` (a C `int`) through `atomic_read_u32`, i.e. as a
`uint32_t`: the two's-complement bit pattern of the int value. -/
def atomic_read_u32 (i : Int) : Nat := (i % (2 ^ 32 : Int)).toNat

/-- The state of one `struct esdm_drng` instance.  The opaque DRBG state
pointer `drng` is modelled by its allocatedness (NULL or not); the callback
descriptors and the locks carry no data relevant to the claims. -/
structure EsdmDrng where
  drng : Bool
  requests : Int
  requests_since_fully_seeded : Int
  last_seeded : Int
  fully_seeded : Bool
  force_reseed : Bool
  deriving DecidableEq, Repr, Inhabited

/-- Initial value of the global `int esdm_drng_reseed_max_time = 600;`. -/
def esdm_drng_reseed_max_time : Int := 600

/-- `esdm_time_after(curr, base)`: is time `curr` after time `base`,
treating `(time_t)-1` (the `time()` failure value) specially. -/
def esdm_time_after (curr base : Int) : Bool :=
  if curr = -1 then false
  else if base = -1 then true
  else decide (curr > base)

/-- `esdm_time_after_now(base)` with the current time `now` passed
explicitly: seconds elapsed past `base`, or 0. -/
def esdm_time_after_now (now base : Int) : Int :=
  if now = -1 then 0
  else if esdm_time_after now base then now - base else 0

/-- `esdm_drng_reset`: reset counters and flags of a DRNG instance.
`thresh` is `ESDM_DRNG_RESEED_THRESH`, `now` is `time(NULL)`. -/
def esdm_drng_reset (thresh now : Int) (d : EsdmDrng) : EsdmDrng :=
  { d with
    requests := thresh
    requests_since_fully_seeded := 0
    last_seeded := now
    fully_seeded := false
    force_reseed := true }

/-- `esdm_drng_inject`: inject a seed buffer into a DRNG.  The result of the
`drng_cb->drng_seed` callback is the oracle `seedRet` (negative on failure),
`fs` is the `fully_seeded` flag argument, `now` is `time(NULL)` at the
update of `last_seeded`. -/
def esdm_drng_inject (thresh now seedRet : Int) (fs : Bool) (d : EsdmDrng) :
    EsdmDrng :=
  if !d.drng then d
  else if seedRet < 0 then { d with force_reseed := true }
  else
    let gc : Int := thresh - d.requests
    let d1 : EsdmDrng :=
      if fs then { d with requests_since_fully_seeded := 0 }
      else { d with requests_since_fully_seeded :=
                      d.requests_since_fully_seeded + gc }
    let d2 : EsdmDrng :=
      { d1 with last_seeded := now, requests := thresh, force_reseed := false }
    if !d2.fully_seeded then { d2 with fully_seeded := fs } else d2

/-- `esdm_drng_must_reseed`: the boolean result together with the state after
the unconditional `atomic_dec_and_test(&drng->requests)`.  `maxTime` is the
current value of `esdm_drng_reseed_max_time`, `now` is `time(NULL)`. -/
def esdm_drng_must_reseed (maxTime now : Int) (d : EsdmDrng) :
    Bool × EsdmDrng :=
  let d1 : EsdmDrng := { d with requests := d.requests - 1 }
  ((d1.requests == 0) || d.force_reseed ||
     (esdm_time_after_now now (d.last_seeded + maxTime) != 0), d1)

/-- `esdm_drng_seed_es`: fill a seed buffer from the entropy sources and
inject it.  The entropy-source machinery (`esdm_fill_seed_buffer`,
`esdm_fully_seeded_eb`, `esdm_init_ops`) lives in esdm_es_mgr.c, which is not
among the given sources; its outcome is the oracle pair `seedRet`/`flag`. -/
def esdm_drng_seed_es (thresh now seedRet : Int) (flag : Bool)
    (d : EsdmDrng) : EsdmDrng :=
  esdm_drng_inject thresh now seedRet flag d

/-- `esdm_drng_seed`: with `esdm_get_available()` true, (re-)seed the DRNG
from the entropy sources (the subsequent reseeding of the atomic DRNG does
not touch this instance); otherwise the instance is left untouched (only the
atomic DRNG or the init-ops state machine is updated). -/
def esdm_drng_seed (thresh : Int) (avail : Bool) (now seedRet : Int)
    (flag : Bool) (d : EsdmDrng) : EsdmDrng :=
  if avail then esdm_drng_seed_es thresh now seedRet flag d else d

/-- `esdm_drng_seed_work_one`: seed the DRNG for node `node` and, if it is
fully seeded afterwards, stagger `last_seeded` by `node * 60` seconds.  The
C multiplication `node * 60` is `uint32_t` arithmetic, hence the mod 2^32. -/
def esdm_drng_seed_work_one (thresh : Int) (avail : Bool) (now seedRet : Int)
    (flag : Bool) (node : Nat) (d : EsdmDrng) : EsdmDrng :=
  let d1 := esdm_drng_seed thresh avail now seedRet flag d
  if d1.fully_seeded then
    { d1 with last_seeded := d1.last_seeded + ((node * 60) % 2 ^ 32 : Nat) }
  else d1

/-- A sample allocated DRNG instance used by witnesses. -/
def drngSample : EsdmDrng :=
  { drng := true, requests := 5, requests_since_fully_seeded := 0,
    last_seeded := 0, fully_seeded := false, force_reseed := false }

/-! Helper lemma for the `must_reseed` time clause. -/

theorem esdm_time_after_now_ne_zero (now base : Int) (h : 0 ≤ now) :
    esdm_time_after_now now base ≠ 0 ↔ base < now := by
  have hne : now ≠ -1 := by omega
  unfold esdm_time_after_now esdm_time_after
  by_cases hb : base = -1
  · subst hb
    simp [hne]
    omega
  · simp only [hne, if_false, hb, if_neg]
    by_cases hlt : base < now
    · simp [hlt]
      omega
    · simp [hlt, gt_iff_lt]

/-- C3: on a DRNG with allocated DRBG state, a non-negative `drng_seed`
return makes `esdm_drng_inject` reset `requests` to the reseed threshold,
set `last_seeded` to the current time, clear `force_reseed`, zero
`requests_since_fully_seeded` when the fully-seeded flag is set (else add
the generate calls since the last seed, i.e. threshold minus the pre-call
`requests`), and leave `fully_seeded` at `old ∨ flag`. -/
theorem esdm_drng_inject_success (thresh now seedRet : Int) (flag : Bool)
    (d : EsdmDrng) (halloc : d.drng = true) (hret : 0 ≤ seedRet) :
    (esdm_drng_inject thresh now seedRet flag d).requests = thresh ∧
    (esdm_drng_inject thresh now seedRet flag d).last_seeded = now ∧
    (esdm_drng_inject thresh now seedRet flag d).force_reseed = false ∧
    (esdm_drng_inject thresh now seedRet flag d).requests_since_fully_seeded
      = (if flag then 0
         else d.requests_since_fully_seeded + (thresh - d.requests)) ∧
    (esdm_drng_inject thresh now seedRet flag d).fully_seeded
      = (d.fully_seeded || flag) := by
  have hnl : ¬seedRet < 0 := not_lt.mpr hret
  cases hd : d.fully_seeded <;> cases hf : flag <;>
    simp [esdm_drng_inject, halloc, hnl, hd, hf]

/-- Witness for C3 at a concrete input. -/
theorem esdm_drng_inject_success_witness :
    (esdm_drng_inject 1024 7 0 true drngSample).requests = 1024 ∧
    (esdm_drng_inject 1024 7 0 true drngSample).last_seeded = 7 ∧
    (esdm_drng_inject 1024 7 0 true drngSample).force_reseed = false ∧
    (esdm_drng_inject 1024 7 0 true drngSample).requests_since_fully_seeded
      = (if true then 0
         else drngSample.requests_since_fully_seeded + (1024 - drngSample.requests)) ∧
    (esdm_drng_inject 1024 7 0 true drngSample).fully_seeded
      = (drngSample.fully_seeded || true) :=
  esdm_drng_inject_success 1024 7 0 true drngSample rfl (by decide)

/-- C4: on a DRNG with allocated DRBG state, a negative `drng_seed` return
makes `esdm_drng_inject` set `force_reseed` and leave `fully_seeded`,
`requests`, `requests_since_fully_seeded` and `last_seeded` unchanged. -/
theorem esdm_drng_inject_failure (thresh now seedRet : Int) (flag : Bool)
    (d : EsdmDrng) (halloc : d.drng = true) (hret : seedRet < 0) :
    (esdm_drng_inject thresh now seedRet flag d).force_reseed = true ∧
    (esdm_drng_inject thresh now seedRet flag d).fully_seeded = d.fully_seeded ∧
    (esdm_drng_inject thresh now seedRet flag d).requests = d.requests ∧
    (esdm_drng_inject thresh now seedRet flag d).requests_since_fully_seeded
      = d.requests_since_fully_seeded ∧
    (esdm_drng_inject thresh now seedRet flag d).last_seeded = d.last_seeded := by
  simp [esdm_drng_inject, halloc, hret]

/-- Witness for C4 at a concrete input. -/
theorem esdm_drng_inject_failure_witness :
    (esdm_drng_inject 1024 7 (-1) false drngSample).force_reseed = true ∧
    (esdm_drng_inject 1024 7 (-1) false drngSample).fully_seeded
      = drngSample.fully_seeded ∧
    (esdm_drng_inject 1024 7 (-1) false drngSample).requests
      = drngSample.requests ∧
    (esdm_drng_inject 1024 7 (-1) false drngSample).requests_since_fully_seeded
      = drngSample.requests_since_fully_seeded ∧
    (esdm_drng_inject 1024 7 (-1) false drngSample).last_seeded
      = drngSample.last_seeded :=
  esdm_drng_inject_failure 1024 7 (-1) false drngSample rfl (by decide)

/-- C5: `esdm_drng_must_reseed` returns true exactly when the decremented
`requests` counter reaches zero, `force_reseed` is set, or the current time
exceeds `last_seeded + esdm_drng_reseed_max_time`; the global's default
value is 600 seconds.  The hypothesis `0 ≤ now` states that `time(NULL)`
did not fail (its failure value is `(time_t)-1`). -/
theorem esdm_drng_must_reseed_iff (maxTime now : Int) (d : EsdmDrng)
    (h : 0 ≤ now) :
    (((esdm_drng_must_reseed maxTime now d).1 = true ↔
       (d.requests - 1 = 0 ∨ d.force_reseed = true ∨
        d.last_seeded + maxTime < now)) ∧
     (esdm_drng_must_reseed maxTime now d).2.requests = d.requests - 1) ∧
    esdm_drng_reseed_max_time = 600 := by
  refine ⟨⟨?_, rfl⟩, rfl⟩
  have ht := esdm_time_after_now_ne_zero now (d.last_seeded + maxTime) h
  simp only [esdm_drng_must_reseed, Bool.or_eq_true, beq_iff_eq, bne_iff_ne]
  rw [ht, or_assoc]

/-- Witness for C5 at a concrete input. -/
theorem esdm_drng_must_reseed_iff_witness :
    (((esdm_drng_must_reseed 600 700 drngSample).1 = true ↔
       (drngSample.requests - 1 = 0 ∨ drngSample.force_reseed = true ∨
        drngSample.last_seeded + 600 < 700)) ∧
     (esdm_drng_must_reseed 600 700 drngSample).2.requests
       = drngSample.requests - 1) ∧
    esdm_drng_reseed_max_time = 600 :=
  esdm_drng_must_reseed_iff 600 700 drngSample (by decide)

/-! The sequences of DRNG-instance operations considered by the reseed
ceiling invariant: reset, seed injection, and the `must_reseed` check
(whose decrement is its only state change). -/

/-- One operation on a DRNG instance. -/
inductive DrngOp where
  | reset (now : Int)
  | inject (now seedRet : Int) (flag : Bool)
  | mustReseed (maxTime now : Int)
  deriving DecidableEq, Repr

/-- Apply one operation to a DRNG instance state. -/
def drngStep (thresh : Int) (d : EsdmDrng) : DrngOp → EsdmDrng
  | DrngOp.reset now => esdm_drng_reset thresh now d
  | DrngOp.inject now seedRet flag => esdm_drng_inject thresh now seedRet flag d
  | DrngOp.mustReseed maxTime now => (esdm_drng_must_reseed maxTime now d).2

/-- Apply a sequence of operations to a DRNG instance state. -/
def drngRun (thresh : Int) (d : EsdmDrng) : List DrngOp → EsdmDrng
  | [] => d
  | op :: ops => drngRun thresh (drngStep thresh d op) ops

/-- Every operation preserves `requests ≤ thresh`. -/
theorem drngStep_requests_le (thresh : Int) (d : EsdmDrng) (op : DrngOp)
    (h : d.requests ≤ thresh) : (drngStep thresh d op).requests ≤ thresh := by
  cases op with
  | reset now => simp [drngStep, esdm_drng_reset]
  | inject now seedRet flag =>
    cases hd : d.drng <;> cases hf : flag <;> cases hfs : d.fully_seeded <;>
      by_cases hr : seedRet < 0 <;>
      simp [drngStep, esdm_drng_inject, hd, hf, hfs, hr] <;> omega
  | mustReseed maxTime now =>
    simp only [drngStep, esdm_drng_must_reseed]
    omega

/-- The ceiling is an invariant of arbitrary operation sequences. -/
theorem drngRun_requests_le (thresh : Int) (ops : List DrngOp) (d : EsdmDrng)
    (h : d.requests ≤ thresh) : (drngRun thresh d ops).requests ≤ thresh := by
  induction ops generalizing d with
  | nil => simpa [drngRun] using h
  | cons op ops ih => exact ih _ (drngStep_requests_le thresh d op h)

/-- C7: starting from a reset state, no sequence of reset / inject /
must-reseed operations drives `requests` above `ESDM_DRNG_RESEED_THRESH`;
reset and every successful seed set it exactly to the threshold, a failed
seed leaves it unchanged, and the must-reseed check only decrements it. -/
theorem esdm_drng_requests_ceiling (thresh now0 : Int) (d0 : EsdmDrng)
    (ops : List DrngOp) :
    (drngRun thresh (esdm_drng_reset thresh now0 d0) ops).requests ≤ thresh ∧
    (esdm_drng_reset thresh now0 d0).requests = thresh ∧
    (∀ (d : EsdmDrng) (now r : Int) (f : Bool), d.drng = true → 0 ≤ r →
       (esdm_drng_inject thresh now r f d).requests = thresh) ∧
    (∀ (d : EsdmDrng) (now r : Int) (f : Bool), r < 0 →
       (esdm_drng_inject thresh now r f d).requests = d.requests) ∧
    (∀ (d : EsdmDrng) (maxTime now : Int),
       ((esdm_drng_must_reseed maxTime now d).2).requests = d.requests - 1) := by
  refine ⟨drngRun_requests_le thresh ops _ (le_of_eq rfl), rfl, ?_, ?_, ?_⟩
  · intro d now r f hd hr
    exact (esdm_drng_inject_success thresh now r f d hd hr).1
  · intro d now r f hr
    cases hd : d.drng
    · simp [esdm_drng_inject, hd]
    · simp [esdm_drng_inject, hd, hr]
  · intro d maxTime now
    rfl

/-- Witness for C7 at a concrete input. -/
theorem esdm_drng_requests_ceiling_witness :
    (drngRun 1024 (esdm_drng_reset 1024 0 drngSample)
        [DrngOp.mustReseed 600 3, DrngOp.inject 5 0 true]).requests ≤ 1024 ∧
    (esdm_drng_inject 1024 9 0 true drngSample).requests = 1024 ∧
    (esdm_drng_inject 1024 9 (-2) true drngSample).requests
      = drngSample.requests := by
  have h := esdm_drng_requests_ceiling 1024 0 drngSample
    [DrngOp.mustReseed 600 3, DrngOp.inject 5 0 true]
  exact ⟨h.1, h.2.2.1 drngSample 9 0 true rfl (by decide),
         h.2.2.2.1 drngSample 9 (-2) true (by decide)⟩

/-- C9 counterexample: a successful (`drng_seed` returned 0) but not fully
seeded injection on node 1 leaves `last_seeded` at the injection time; it is
not advanced by `1 * 60` seconds, refuting the claim that every successful
per-node seeding staggers `last_seeded`. -/
theorem esdm_drng_seed_work_one_claim_false :
    drngSample.drng = true ∧ (0 : Int) ≤ 0 ∧
    (esdm_drng_seed_work_one 1024 true 100 0 false 1 drngSample).last_seeded
      = 100 ∧
    ¬((esdm_drng_seed_work_one 1024 true 100 0 false 1
         drngSample).last_seeded = 100 + 1 * 60) := by
  decide

/-- C9 (amended): after a successful seeding by `esdm_drng_seed_work_one`
on node `node` that leaves the instance fully seeded, `last_seeded` equals
the injection time plus `node * 60` seconds (the product taken in `uint32_t`
arithmetic, which under `node * 60 < 2^32` is exact). -/
theorem esdm_drng_seed_work_one_stagger (thresh now seedRet : Int)
    (flag : Bool) (node : Nat) (d : EsdmDrng)
    (halloc : d.drng = true) (hret : 0 ≤ seedRet)
    (hfs : (esdm_drng_seed thresh true now seedRet flag d).fully_seeded = true)
    (hnode : node * 60 < 2 ^ 32) :
    (esdm_drng_seed_work_one thresh true now seedRet flag node d).last_seeded
      = now + node * 60 := by
  have hls : (esdm_drng_seed thresh true now seedRet flag d).last_seeded = now := by
    simp only [esdm_drng_seed, if_pos]
    exact (esdm_drng_inject_success thresh now seedRet flag d halloc hret).2.1
  have hmod : ((node * 60) % 2 ^ 32 : Nat) = node * 60 := Nat.mod_eq_of_lt hnode
  simp only [esdm_drng_seed_work_one, hfs, if_pos, hmod, hls]
  push_cast
  ring

/-- Witness for the amended C9 at a concrete input. -/
theorem esdm_drng_seed_work_one_stagger_witness :
    (esdm_drng_seed_work_one 1024 true 100 0 true 1 drngSample).last_seeded
      = 100 + 1 * 60 :=
  esdm_drng_seed_work_one_stagger 1024 100 0 true 1 drngSample rfl
    (by decide) (by decide) (by decide)

/-! Runtime configuration (esdm_config.c).  The `esdm_es_add_entropy()` call
performed by each setter schedules work in the entropy-source manager and
does not change the configuration record. -/

/-- The `struct esdm_config` record.  `force_fips` is omitted: no claim
touches it.  All fields are `uint32_t`, modelled as `Nat`. -/
structure EsdmConfig where
  esdm_es_cpu_entropy_rate_bits : Nat
  esdm_es_jent_entropy_rate_bits : Nat
  esdm_es_krng_entropy_rate_bits : Nat
  esdm_es_sched_entropy_rate_bits : Nat
  esdm_drng_max_wo_reseed : Nat
  esdm_max_nodes : Nat
  deriving DecidableEq, Repr

/-- `esdm_config_entropy_rate_max`:
`min_t(uint32_t, ESDM_DRNG_SECURITY_STRENGTH_BITS, val)`. -/
def esdm_config_entropy_rate_max (val : Nat) : Nat :=
  min ESDM_DRNG_SECURITY_STRENGTH_BITS val

/-- `esdm_config_es_cpu_entropy_rate`. -/
def esdm_config_es_cpu_entropy_rate (c : EsdmConfig) : Nat :=
  c.esdm_es_cpu_entropy_rate_bits

/-- `esdm_config_es_cpu_entropy_rate_set`. -/
def esdm_config_es_cpu_entropy_rate_set (ent : Nat) (c : EsdmConfig) :
    EsdmConfig :=
  { c with esdm_es_cpu_entropy_rate_bits := esdm_config_entropy_rate_max ent }

/-- `esdm_config_es_jent_entropy_rate`. -/
def esdm_config_es_jent_entropy_rate (c : EsdmConfig) : Nat :=
  c.esdm_es_jent_entropy_rate_bits

/-- `esdm_config_es_jent_entropy_rate_set`. -/
def esdm_config_es_jent_entropy_rate_set (ent : Nat) (c : EsdmConfig) :
    EsdmConfig :=
  { c with esdm_es_jent_entropy_rate_bits := esdm_config_entropy_rate_max ent }

/-- `esdm_config_es_krng_entropy_rate`. -/
def esdm_config_es_krng_entropy_rate (c : EsdmConfig) : Nat :=
  c.esdm_es_krng_entropy_rate_bits

/-- `esdm_config_es_krng_entropy_rate_set`. -/
def esdm_config_es_krng_entropy_rate_set (ent : Nat) (c : EsdmConfig) :
    EsdmConfig :=
  { c with esdm_es_krng_entropy_rate_bits := esdm_config_entropy_rate_max ent }

/-- `esdm_config_es_sched_entropy_rate`. -/
def esdm_config_es_sched_entropy_rate (c : EsdmConfig) : Nat :=
  c.esdm_es_sched_entropy_rate_bits

/-- `esdm_config_es_sched_entropy_rate_set`. -/
def esdm_config_es_sched_entropy_rate_set (ent : Nat) (c : EsdmConfig) :
    EsdmConfig :=
  { c with esdm_es_sched_entropy_rate_bits := esdm_config_entropy_rate_max ent }

/-- `esdm_config_drng_max_wo_reseed`. -/
def esdm_config_drng_max_wo_reseed (c : EsdmConfig) : Nat :=
  c.esdm_drng_max_wo_reseed

/-- C8: for every value `v` and each of the four per-source entropy-rate
slots, a set followed by a get returns
`min v ESDM_DRNG_SECURITY_STRENGTH_BITS`. -/
theorem esdm_config_entropy_rate_set_get (v : Nat) (c : EsdmConfig) :
    esdm_config_es_cpu_entropy_rate (esdm_config_es_cpu_entropy_rate_set v c)
      = min v ESDM_DRNG_SECURITY_STRENGTH_BITS ∧
    esdm_config_es_jent_entropy_rate (esdm_config_es_jent_entropy_rate_set v c)
      = min v ESDM_DRNG_SECURITY_STRENGTH_BITS ∧
    esdm_config_es_krng_entropy_rate (esdm_config_es_krng_entropy_rate_set v c)
      = min v ESDM_DRNG_SECURITY_STRENGTH_BITS ∧
    esdm_config_es_sched_entropy_rate
        (esdm_config_es_sched_entropy_rate_set v c)
      = min v ESDM_DRNG_SECURITY_STRENGTH_BITS := by
  refine ⟨?_, ?_, ?_, ?_⟩ <;>
    simp [esdm_config_es_cpu_entropy_rate, esdm_config_es_cpu_entropy_rate_set,
          esdm_config_es_jent_entropy_rate, esdm_config_es_jent_entropy_rate_set,
          esdm_config_es_krng_entropy_rate, esdm_config_es_krng_entropy_rate_set,
          esdm_config_es_sched_entropy_rate,
          esdm_config_es_sched_entropy_rate_set,
          esdm_config_entropy_rate_max, Nat.min_comm]

/-! Random number generation: `esdm_drng_get` (esdm_drng_mgr.c). -/

/-- `esdm_unset_fully_seeded(drng)` lives in esdm_es_mgr.c, which is not
among the given sources.  Modelled from the spec: "the instance is demoted
to `fully_seeded=false` before proceeding" (its further effect on the global
state machine is outside the DRNG instance state). -/
def esdm_unset_fully_seeded (d : EsdmDrng) : EsdmDrng :=
  { d with fully_seeded := false }

/-- The demotion check at the top of `esdm_drng_get`: if
`atomic_read_u32(&drng->requests_since_fully_seeded)` exceeds
`esdm_config_drng_max_wo_reseed()`, demote the instance. -/
def esdm_drng_get_demote (maxWoReseed : Nat) (d : EsdmDrng) : EsdmDrng :=
  if atomic_read_u32 d.requests_since_fully_seeded > maxWoReseed then
    esdm_unset_fully_seeded d
  else d

/-- Per-iteration oracle of the `esdm_drng_get` generate loop: the
`time(NULL)` value read by `esdm_drng_must_reseed`, the result of
`esdm_pool_trylock()` (`poolBusy = true` means the lock was not acquired),
the seeding oracle used when a reseed runs, and the return value of the
`drng_cb->drng_generate` callback. -/
structure GetStep where
  now : Int
  poolBusy : Bool
  seedNow : Int
  seedRet : Int
  seedFlag : Bool
  genRet : Int
  deriving DecidableEq, Repr, Inhabited

/-- The `while (outbuflen)` loop of `esdm_drng_get`.  One oracle step is
consumed per iteration; an exhausted oracle stands for a failing generate
callback (which makes the loop return `-EFAULT`).  The generate callback
contract bounds its return by the requested `todo` bytes, hence the `min`;
the C `size_t` wrap-around of `outbuflen -= ret` for an out-of-contract
callback is not modelled (Nat subtraction truncates instead). -/
def esdm_drng_get_loop (thresh maxTime : Int) (avail : Bool) (maxReq : Nat) :
    List GetStep → EsdmDrng → Nat → Nat → Int × EsdmDrng
  | [], d, outbuflen, processed =>
    if outbuflen = 0 then ((processed : Int), d) else (-EFAULT, d)
  | st :: rest, d, outbuflen, processed =>
    if outbuflen = 0 then ((processed : Int), d)
    else
      let todo := min outbuflen maxReq
      let md := esdm_drng_must_reseed maxTime st.now d
      let d1 := if md.1 then
                  (if st.poolBusy then { md.2 with force_reseed := true }
                   else esdm_drng_seed thresh avail st.seedNow st.seedRet
                          st.seedFlag md.2)
                else md.2
      if st.genRet ≤ 0 then (-EFAULT, d1)
      else
        esdm_drng_get_loop thresh maxTime avail maxReq rest d1
          (outbuflen - min st.genRet.toNat todo)
          (processed + min st.genRet.toNat todo)

/-- `esdm_drng_get`: NULL-buffer/zero-length guard, availability guard,
`SSIZE_MAX` clamp, demotion check, then the generate loop.  `outbufNull`
models `outbuf == NULL`; `maxReq` is `ESDM_DRNG_MAX_REQSIZE`. -/
def esdm_drng_get (cfg : EsdmConfig) (avail : Bool) (thresh maxTime : Int)
    (maxReq : Nat) (steps : List GetStep) (d : EsdmDrng) (outbufNull : Bool)
    (outbuflen : Nat) : Int × EsdmDrng :=
  if outbufNull || outbuflen == 0 then (0, d)
  else if !avail then (-EOPNOTSUPP, d)
  else
    esdm_drng_get_loop thresh maxTime avail maxReq steps
      (esdm_drng_get_demote (esdm_config_drng_max_wo_reseed cfg) d)
      (min outbuflen SSIZE_MAX) 0

/-- A sample configuration record used by witnesses. -/
def cfgSample : EsdmConfig :=
  { esdm_es_cpu_entropy_rate_bits := 8, esdm_es_jent_entropy_rate_bits := 16,
    esdm_es_krng_entropy_rate_bits := 256,
    esdm_es_sched_entropy_rate_bits := 0,
    esdm_drng_max_wo_reseed := 1048576, esdm_max_nodes := 4 }

/-- C6: for a non-empty request, `esdm_drng_get` clears `fully_seeded` when
the `requests_since_fully_seeded` counter (read as `uint32_t`) strictly
exceeds `esdm_config_drng_max_wo_reseed()`, leaves the instance untouched
when the counter equals the limit exactly, and hands the (possibly demoted)
state to the generate loop, so the demotion precedes all byte generation. -/
theorem esdm_drng_get_demotion (cfg : EsdmConfig) (avail : Bool)
    (thresh maxTime : Int) (maxReq : Nat) (steps : List GetStep)
    (d : EsdmDrng) (outbuflen : Nat) (hlen : outbuflen ≠ 0) :
    (atomic_read_u32 d.requests_since_fully_seeded >
        esdm_config_drng_max_wo_reseed cfg →
      (esdm_drng_get_demote (esdm_config_drng_max_wo_reseed cfg)
         d).fully_seeded = false) ∧
    (atomic_read_u32 d.requests_since_fully_seeded =
        esdm_config_drng_max_wo_reseed cfg →
      esdm_drng_get_demote (esdm_config_drng_max_wo_reseed cfg) d = d) ∧
    (avail = true →
      esdm_drng_get cfg avail thresh maxTime maxReq steps d false outbuflen =
        esdm_drng_get_loop thresh maxTime avail maxReq steps
          (esdm_drng_get_demote (esdm_config_drng_max_wo_reseed cfg) d)
          (min outbuflen SSIZE_MAX) 0) := by
  refine ⟨?_, ?_, ?_⟩
  · intro hgt
    simp [esdm_drng_get_demote, hgt, esdm_unset_fully_seeded]
  · intro heq
    simp [esdm_drng_get_demote, heq]
  · intro havail
    subst havail
    simp [esdm_drng_get, hlen]

/-- Witness for C6 at a concrete input. -/
theorem esdm_drng_get_demotion_witness :
    ((atomic_read_u32 drngSample.requests_since_fully_seeded >
        esdm_config_drng_max_wo_reseed cfgSample →
      (esdm_drng_get_demote (esdm_config_drng_max_wo_reseed cfgSample)
         drngSample).fully_seeded = false) ∧
    (atomic_read_u32 drngSample.requests_since_fully_seeded =
        esdm_config_drng_max_wo_reseed cfgSample →
      esdm_drng_get_demote (esdm_config_drng_max_wo_reseed cfgSample)
        drngSample = drngSample) ∧
    (true = true →
      esdm_drng_get cfgSample true 1024 600 65536 [] drngSample false 32 =
        esdm_drng_get_loop 1024 600 true 65536 []
          (esdm_drng_get_demote (esdm_config_drng_max_wo_reseed cfgSample)
            drngSample)
          (min 32 SSIZE_MAX) 0)) :=
  esdm_drng_get_demotion cfgSample true 1024 600 65536 [] drngSample 32
    (by decide)

/-- C10: a NULL output buffer or a zero-length request makes
`esdm_drng_get` return 0 with the DRNG state unchanged, for every
availability state; in particular the result is never `-EOPNOTSUPP`,
because this guard precedes the availability check. -/
theorem esdm_drng_get_null_or_empty (cfg : EsdmConfig) (avail : Bool)
    (thresh maxTime : Int) (maxReq : Nat) (steps : List GetStep)
    (d : EsdmDrng) (outbufNull : Bool) (outbuflen : Nat)
    (h : outbufNull = true ∨ outbuflen = 0) :
    esdm_drng_get cfg avail thresh maxTime maxReq steps d outbufNull outbuflen
      = (0, d) ∧
    (esdm_drng_get cfg avail thresh maxTime maxReq steps d outbufNull
        outbuflen).1 ≠ -EOPNOTSUPP := by
  have hguard : (outbufNull || outbuflen == 0) = true := by
    rcases h with h | h
    · simp [h]
    · simp [h]
  constructor
  · simp [esdm_drng_get, hguard]
  · simp [esdm_drng_get, hguard, EOPNOTSUPP]

/-- Witness for C10 at a concrete input: zero-length request while the ESDM
is not available. -/
theorem esdm_drng_get_null_or_empty_witness :
    esdm_drng_get cfgSample false 1024 600 65536 [] drngSample false 0
      = (0, drngSample) ∧
    (esdm_drng_get cfgSample false 1024 600 65536 [] drngSample false 0).1
      ≠ -EOPNOTSUPP :=
  esdm_drng_get_null_or_empty cfgSample false 1024 600 65536 [] drngSample
    false 0 (Or.inr rfl)

/-! DRNG manager initialisation (`esdm_drng_mgr_initalize`). -/

/-- Oracle inputs of one `esdm_drng_mgr_initalize` call: the result of
`drng_cb->drng_alloc` and of the two selftest callbacks (`hash_selftest`,
`drng_selftest`, both present for the builtin primitives and returning a
negative value on failure), and `time(NULL)`. -/
structure MgrInitEnv where
  allocRet : Int
  hashSelftestRet : Int
  drngSelftestRet : Int
  now : Int
  deriving DecidableEq, Repr

/-- The manager state touched by initialisation: the `esdm_avail` atomic
flag and the `esdm_drng_init` instance. -/
structure MgrInitState where
  esdm_avail : Bool
  drng_init : EsdmDrng
  deriving DecidableEq, Repr

/-- `esdm_get_available()`. -/
def esdm_get_available (s : MgrInitState) : Bool := s.esdm_avail

/-- `esdm_drng_alloc_common`: set the DRNG callback, allocate the DRBG
state, and reset the instance; a negative `drng_alloc` result is propagated
without the reset.  (The `!drng || !drng_cb` argument check cannot fire for
the addresses passed by the manager.) -/
def esdm_drng_alloc_common (thresh now allocRet : Int) (d : EsdmDrng) :
    Int × EsdmDrng :=
  if allocRet < 0 then (allocRet, d)
  else (allocRet, esdm_drng_reset thresh now { d with drng := true })

/-- `esdm_drng_mgr_selftest`: the hash selftest result, then (if the hash
selftest did not fail) the DRNG selftest result; `CKINT_LOG` (ret_checkers.h,
not among the given sources; modelled from the spec convention that errors
are negative returns) aborts on a negative value. -/
def esdm_drng_mgr_selftest (hashRet drngRet : Int) : Int :=
  if hashRet < 0 then hashRet else drngRet

/-- `esdm_drng_mgr_initalize`: idempotent via the `esdm_avail` check;
allocates the default DRBG for `esdm_drng_init`, sets `esdm_avail`, then
runs the selftests, propagating their result.  Single-threaded execution is
modelled, so the second availability check under the lock coincides with
the first. -/
def esdm_drng_mgr_initalize (thresh : Int) (e : MgrInitEnv)
    (s : MgrInitState) : Int × MgrInitState :=
  if esdm_get_available s then (0, s)
  else
    let ac := esdm_drng_alloc_common thresh e.now e.allocRet s.drng_init
    if ac.1 < 0 then (ac.1, { s with drng_init := ac.2 })
    else
      let s1 : MgrInitState := { esdm_avail := true, drng_init := ac.2 }
      (esdm_drng_mgr_selftest e.hashSelftestRet e.drngSelftestRet, s1)

/-- A manager state before initialisation, used by the C1 theorems. -/
def mgrStart : MgrInitState :=
  { esdm_avail := false,
    drng_init := { drng := false, requests := 0,
                   requests_since_fully_seeded := 0, last_seeded := 0,
                   fully_seeded := false, force_reseed := false } }

/-- C1 counterexample: with allocation succeeding and the hash selftest
failing, `esdm_drng_mgr_initalize` returns the non-zero error, but
`esdm_avail` was already set before the selftest ran, so
`esdm_get_available()` returns true after the call — not false as claimed. -/
theorem esdm_drng_mgr_initalize_selftest_claim_false :
    (esdm_drng_mgr_initalize 1024 ⟨0, -1, 0, 0⟩ mgrStart).1 ≠ 0 ∧
    ¬(esdm_get_available
        (esdm_drng_mgr_initalize 1024 ⟨0, -1, 0, 0⟩ mgrStart).2 = false) := by
  decide

/-- C1 (amended): if the ESDM was not yet available, the DRBG allocation
succeeds and a selftest fails, `esdm_drng_mgr_initalize` propagates the
failure as a negative error, but `esdm_avail` has already been set by then,
so `esdm_get_available()` returns true after the call. -/
theorem esdm_drng_mgr_initalize_selftest_fail (thresh : Int) (e : MgrInitEnv)
    (s : MgrInitState) (hav : esdm_get_available s = false)
    (halloc : 0 ≤ e.allocRet)
    (hself : e.hashSelftestRet < 0 ∨
             (0 ≤ e.hashSelftestRet ∧ e.drngSelftestRet < 0)) :
    (esdm_drng_mgr_initalize thresh e s).1 < 0 ∧
    esdm_get_available (esdm_drng_mgr_initalize thresh e s).2 = true := by
  have hna : ¬e.allocRet < 0 := not_lt.mpr halloc
  have hav' : s.esdm_avail = false := hav
  rcases hself with hh | ⟨hh, hd⟩
  · constructor <;>
      simp [esdm_drng_mgr_initalize, esdm_get_available, hav',
            esdm_drng_alloc_common, hna, esdm_drng_mgr_selftest, hh]
  · have hnh : ¬e.hashSelftestRet < 0 := not_lt.mpr hh
    constructor <;>
      simp [esdm_drng_mgr_initalize, esdm_get_available, hav',
            esdm_drng_alloc_common, hna, esdm_drng_mgr_selftest, hnh, hd]

/-- Witness for the amended C1 at a concrete input (DRNG selftest fails). -/
theorem esdm_drng_mgr_initalize_selftest_fail_witness :
    (esdm_drng_mgr_initalize 1024 ⟨0, 0, -7, 3⟩ mgrStart).1 < 0 ∧
    esdm_get_available
      (esdm_drng_mgr_initalize 1024 ⟨0, 0, -7, 3⟩ mgrStart).2 = true :=
  esdm_drng_mgr_initalize_selftest_fail 1024 ⟨0, 0, -7, 3⟩ mgrStart rfl
    (by decide) (Or.inr ⟨by decide, by decide⟩)

/-! Forced reseeding of all DRNGs (`esdm_drng_force_reseed`). -/

/-- The manager state seen by `esdm_drng_force_reseed`: the init instance,
the lazily allocated per-node array (`esdm_drng_get_instances()` returns
NULL when it does not exist, and individual slots may be NULL), and, for
the atomic DRNG, its `force_reseed` flag.  `esdm_drng_atomic_force_reseed`
lives in esdm_drng_atomic.c, which is not among the given sources; modelled
from the spec: "forces ... the atomic DRNG", i.e. it sets the atomic DRNG's
`force_reseed` flag. -/
structure EsdmDrngMgrNodes where
  drng_init : EsdmDrng
  nodes : Option (List (Option EsdmDrng))
  atomic_force_reseed : Bool
  deriving DecidableEq, Repr

/-- `esdm_drng_force_reseed`: if there is no per-node array or the init
DRNG's `requests_since_fully_seeded` (read as `uint32_t`) exceeds
`ESDM_DRNG_RESEED_THRESH` (`threshU32`, the threshold converted to
`uint32_t` for the comparison), only the init DRNG is forced; otherwise
every existing per-node DRNG and the atomic DRNG are forced.  In both cases
"forcing" a DRNG sets `force_reseed` to its `fully_seeded` value. -/
def esdm_drng_force_reseed (threshU32 : Nat) (s : EsdmDrngMgrNodes) :
    EsdmDrngMgrNodes :=
  match s.nodes with
  | none =>
    { s with drng_init :=
        { s.drng_init with force_reseed := s.drng_init.fully_seeded } }
  | some arr =>
    if atomic_read_u32 s.drng_init.requests_since_fully_seeded > threshU32 then
      { s with drng_init :=
          { s.drng_init with force_reseed := s.drng_init.fully_seeded } }
    else
      { s with
        nodes := some (arr.map (Option.map (fun d =>
                   { d with force_reseed := d.fully_seeded })))
        atomic_force_reseed := true }

/-- A per-node DRNG that is not fully seeded, with all reseed counters at
zero, used by the C2 counterexample. -/
def drngNotFully : EsdmDrng :=
  { drng := true, requests := 100, requests_since_fully_seeded := 0,
    last_seeded := 0, fully_seeded := false, force_reseed := false }

/-- A manager state whose per-node array holds the single not-fully-seeded
DRNG `drngNotFully`, the init DRNG with `requests_since_fully_seeded = 0`. -/
def mgrNodesSample : EsdmDrngMgrNodes :=
  { drng_init := { drng := true, requests := 100,
                   requests_since_fully_seeded := 0, last_seeded := 0,
                   fully_seeded := true, force_reseed := false },
    nodes := some [some drngNotFully],
    atomic_force_reseed := false }

/-- C2 counterexample: the per-node array exists, every DRNG (including the
init DRNG) has `requests_since_fully_seeded = 0`, yet after
`esdm_drng_force_reseed` the per-node DRNG — not fully seeded — has
`force_reseed = false`, not true as claimed: the code assigns
`drng->force_reseed = drng->fully_seeded`. -/
theorem esdm_drng_force_reseed_claim_false :
    atomic_read_u32 mgrNodesSample.drng_init.requests_since_fully_seeded
      = 0 ∧
    mgrNodesSample.nodes = some [some drngNotFully] ∧
    (esdm_drng_force_reseed 1024 mgrNodesSample).nodes
      = some [some { drngNotFully with force_reseed := false }] ∧
    ¬((esdm_drng_force_reseed 1024 mgrNodesSample).nodes
        = some [some { drngNotFully with force_reseed := true }]) := by
  decide

/-- C2 (amended): when the per-node array exists and the init DRNG's
`requests_since_fully_seeded` does not exceed the reseed threshold,
`esdm_drng_force_reseed` sets each existing per-node DRNG's `force_reseed`
to its own `fully_seeded` value (so to true exactly on the fully seeded
instances) and forces the atomic DRNG. -/
theorem esdm_drng_force_reseed_all_nodes (threshU32 : Nat)
    (s : EsdmDrngMgrNodes) (arr : List (Option EsdmDrng))
    (hn : s.nodes = some arr)
    (hinit : atomic_read_u32 s.drng_init.requests_since_fully_seeded
               ≤ threshU32) :
    (∀ (i : Nat) (d : EsdmDrng), arr[i]? = some (some d) →
       ((esdm_drng_force_reseed threshU32 s).nodes.getD [])[i]?
         = some (some ({ d with force_reseed := d.fully_seeded } : EsdmDrng))) ∧
    (esdm_drng_force_reseed threshU32 s).atomic_force_reseed = true := by
  have hng : ¬atomic_read_u32 s.drng_init.requests_since_fully_seeded
               > threshU32 := not_lt.mpr hinit
  constructor
  · intro i d hi
    simp [esdm_drng_force_reseed, hn, hng, List.getElem?_map, hi]
  · simp [esdm_drng_force_reseed, hn, hng]

/-- Witness for the amended C2 at a concrete input. -/
theorem esdm_drng_force_reseed_all_nodes_witness :
    ((esdm_drng_force_reseed 1024 mgrNodesSample).nodes.getD [])[0]?
      = some (some ({ drngNotFully with
                        force_reseed := drngNotFully.fully_seeded } :
                      EsdmDrng)) ∧
    (esdm_drng_force_reseed 1024 mgrNodesSample).atomic_force_reseed
      = true := by
  have h := esdm_drng_force_reseed_all_nodes 1024 mgrNodesSample
    [some drngNotFully] rfl (by decide)
  exact ⟨h.1 0 drngNotFully rfl, h.2⟩
